import Mathlib

/-!
# Verification of the Neewer BLE light protocol codec and device session

Shallow embedding of `custom_components/neewer_ble/neewer_device.py` (and the
model catalog of `const.py`).  Python integers are modelled as `Int`;
`int(x)` applied to an exact rational quotient is truncation toward zero,
modelled with `Int.tdiv` (the source computes these quotients with binary
floating point; on the small integer ranges appearing here the exact-rational
value and the float value truncate identically, and all claims are settled
against the exact-rational reading).  Byte frames are `List Int` (Python lists
of ints).  The BLE transport (bleak) is external; it is modelled by an oracle
that says, for each `_send_command` call, whether the connect and the write
succeed.
-/

/-! ## Protocol constants (`neewer_device.py`, lines 31-40) -/

def STD_POWER_CMD : Int := 0x81
def STD_BRI_CMD : Int := 0x82
def STD_TEMP_CMD : Int := 0x83
def STD_HSI_CMD : Int := 0x86
def STD_CCT_CMD : Int := 0x87

def INF_POWER_CMD : Int := 0x8D
def INF_CCT_CMD : Int := 0x90
def INF_HSI_CMD : Int := 0x8F

/-! ## Model catalog (`const.py`) -/

/-- A model-info dictionary.  Entries of `SUPPORTED_MODELS` carry the keys
`name`, `rgb`, `cct_range`, `cct_only`, `light_type`; the fallback dictionary
built by `_detect_model` carries `name`, `rgb`, `cct_range`, `infinity`.
Keys that a given dictionary may lack are `Option`-valued, so that the
device code's `dict.get(key, default)` accesses are modelled exactly. -/
structure ModelInfo where
  name : String
  rgb : Bool
  cct_range : Int × Int
  infinity : Option Bool
  cct_only : Option Bool
  light_type : Option Nat
deriving DecidableEq

/-- `self._model_info.get("rgb", False)` (`supports_rgb` property). -/
def supports_rgb (mi : ModelInfo) : Bool := mi.rgb

/-- `self._model_info.get("infinity", False)` (`uses_infinity_protocol`
property).  Note: catalog entries store `light_type`, not `infinity`, so the
key is absent for every catalog entry and the default `False` applies. -/
def uses_infinity_protocol (mi : ModelInfo) : Bool := mi.infinity.getD false

/-- `self._model_info.get("cct_range", (3200, 5600))` (`color_temp_range`). -/
def color_temp_range (mi : ModelInfo) : Int × Int := mi.cct_range

/-- `self._model_info.get("cct_only", False)`: the catalog's legacy-CCT flag.
`const.py` documents it as "True = use separate 0x82/0x83 commands (old
CCT-only lights)".  The device code never reads this key. -/
def cct_only_flag (mi : ModelInfo) : Bool := mi.cct_only.getD false

/-- The fallback returned by `_detect_model` when no catalog entry matches
(`neewer_device.py`, lines 81-86). -/
def defaultModelInfo : ModelInfo :=
  { name := "Unknown", rgb := false, cct_range := (3200, 5600),
    infinity := some false, cct_only := none, light_type := none }

/-- Catalog entry `"SNL660"` of `SUPPORTED_MODELS`: a legacy CCT-only,
standard-protocol bi-color panel. -/
def snl660ModelInfo : ModelInfo :=
  { name := "SNL-660", rgb := false, cct_range := (3200, 5600),
    infinity := none, cct_only := some true, light_type := some 0 }

/-- Catalog entry `"RGB660"` of `SUPPORTED_MODELS`: a standard-protocol,
non-legacy RGB panel (`cct_only = False`, `light_type = 0`). -/
def rgb660ModelInfo : ModelInfo :=
  { name := "RGB660", rgb := true, cct_range := (3200, 5600),
    infinity := none, cct_only := some false, light_type := some 0 }

/-- A model-info dictionary with the `infinity` flag set, as can be supplied
through the constructor's `model_info` parameter.  (Catalog entries instead
store `light_type = 1` for Infinity hardware, a key `uses_infinity_protocol`
does not read.)  Capability data of the `"20220035"` / MS150B entry. -/
def infinityModelInfo : ModelInfo :=
  { name := "MS150B", rgb := false, cct_range := (2700, 6500),
    infinity := some true, cct_only := some false, light_type := some 1 }

/-! ## Checksum (`_calculate_checksum`, `_add_checksum`) -/

/-- One loop iteration of `_calculate_checksum`: a negative byte contributes
its two's-complement-corrected value `byte + 256`. -/
def checksum_step (acc byte : Int) : Int :=
  if byte < 0 then acc + (byte + 256) else acc + byte

/-- `_calculate_checksum(data)`: sum the (negativity-corrected) bytes and mask
to the low 8 bits.  On Python's arbitrary-precision integers `sum & 0xFF`
equals `sum mod 256` with a nonnegative result, i.e. `Int.emod sum 256`. -/
def _calculate_checksum (data : List Int) : Int :=
  (data.foldl checksum_step 0).emod 256

/-- `_add_checksum(cmd) = cmd + [_calculate_checksum(cmd)]`. -/
def _add_checksum (cmd : List Int) : List Int :=
  cmd ++ [_calculate_checksum cmd]

/-! ## Unit converters (`_kelvin_to_internal`, `_internal_to_kelvin`) -/

/-- Python `max(lo, min(hi, v))`. -/
def pyClamp (lo hi v : Int) : Int := max lo (min hi v)

/-- `_kelvin_to_internal`: clamp kelvin into the range, then
`int(((kelvin - min_k) / (max_k - min_k)) * 100)`.  The quotient times 100 is
the single exact rational `((kelvin - min_k) * 100) / (max_k - min_k)`, and
`int` truncates it toward zero: `Int.tdiv`. -/
def kelvin_to_internal (range : Int × Int) (kelvin : Int) : Int :=
  let k := pyClamp range.1 range.2 kelvin
  ((k - range.1) * 100).tdiv (range.2 - range.1)

/-- `_internal_to_kelvin`: `int(min_k + (internal / 100) * (max_k - min_k))`.
`min_k` is an integer and in every use `internal ≥ 0` and `min_k < max_k`, so
the truncation acts on the product term alone. -/
def internal_to_kelvin (range : Int × Int) (internal : Int) : Int :=
  range.1 + (internal * (range.2 - range.1)).tdiv 100

/-- `temp_protocol = int(32 + (color_temp / 100) * 24)`, the internal-scale to
protocol-byte conversion duplicated inside `_build_cct_command` and
`_build_temp_only_command`.  For the nonnegative internal scale this is
`32 + ⌊color_temp * 24 / 100⌋`. -/
def protocol_temp (color_temp : Int) : Int :=
  32 + (color_temp * 24).tdiv 100

/-! ## Command builders (`_build_*_command`)

Each builder receives the device's resolved MAC bytes (`self._get_mac_bytes()`,
modelled separately below) as the `mac` argument. -/

/-- `_build_cct_command(brightness, color_temp)` (lines 300-326); the source's
local `temp_protocol` and `gm_value = 50` are inlined. -/
def _build_cct_command (mi : ModelInfo) (mac : List Int)
    (brightness color_temp : Int) : List Int :=
  if uses_infinity_protocol mi then
    _add_checksum ([0x78, INF_CCT_CMD, 0x0B] ++ mac ++
      [STD_CCT_CMD, brightness, protocol_temp color_temp, 50, 0x04])
  else
    _add_checksum [0x78, STD_CCT_CMD, 0x02, brightness, protocol_temp color_temp]

/-- `_build_hsi_command(hue, saturation, intensity)` (lines 328-353).
`hue & 0xFF` and `(hue >> 8) & 0xFF` on Python integers are `Int.emod _ 256`
and `(Int.ediv _ 256).emod 256` (both match Python's semantics on negative
values as well). -/
def _build_hsi_command (mi : ModelInfo) (mac : List Int)
    (hue saturation intensity : Int) : List Int :=
  if uses_infinity_protocol mi then
    _add_checksum ([0x78, INF_HSI_CMD, 0x0B] ++ mac ++
      [STD_HSI_CMD, hue.emod 256, (hue.ediv 256).emod 256, saturation, intensity])
  else
    _add_checksum
      [0x78, STD_HSI_CMD, 0x04, hue.emod 256, (hue.ediv 256).emod 256, saturation, intensity]

/-- `_build_power_command(on)` (lines 355-371); the source's `on` argument is
`power_on` here (`on` is reserved in Lean). -/
def _build_power_command (mi : ModelInfo) (mac : List Int) (power_on : Bool) : List Int :=
  if uses_infinity_protocol mi then
    _add_checksum ([0x78, INF_POWER_CMD, 0x08] ++ mac ++
      [STD_POWER_CMD, if power_on then 1 else 0])
  else
    _add_checksum [0x78, STD_POWER_CMD, 0x01, if power_on then 1 else 2]

/-- `_build_brightness_only_command(brightness)` (lines 373-383). -/
def _build_brightness_only_command (brightness : Int) : List Int :=
  _add_checksum [0x78, STD_BRI_CMD, 0x01, brightness]

/-- `_build_temp_only_command(color_temp)` (lines 385-398). -/
def _build_temp_only_command (color_temp : Int) : List Int :=
  _add_checksum [0x78, STD_TEMP_CMD, 0x01, protocol_temp color_temp]

/-! ## MAC address resolution (`_get_mac_bytes`, plain-address path)

The macOS/Infinity branch (lines 192-205) shells out to `system_profiler` and
is platform I/O outside this embedding; on failure it falls through to the
same plain-address parsing modelled here (lines 207-215). -/

def isHexDigitChar (c : Char) : Bool :=
  c.isDigit || ('a' ≤ c && c ≤ 'f') || ('A' ≤ c && c ≤ 'F')

def hexDigitVal (c : Char) : Nat :=
  if c.isDigit then c.toNat - 48
  else if 'a' ≤ c && c ≤ 'f' then c.toNat - 87
  else c.toNat - 55

/-- Model of Python `int(p, 16)`: the value of a nonempty string of
hexadecimal digits, `none` (a raised `ValueError`) otherwise.  Python also
strips surrounding whitespace and accepts an optional sign or `0x` prefix;
no address form exercised by the claims uses those. -/
def pyIntHex (s : List Char) : Option Nat :=
  if s.isEmpty then none
  else if s.all isHexDigitChar then
    some (s.foldl (fun v c => v * 16 + hexDigitVal c) 0)
  else none

/-- `address.replace("-", ":")`: exact character-wise model for the
one-character pattern. -/
def pyReplaceDash (s : List Char) : List Char :=
  s.map fun c => if c = '-' then ':' else c

/-- `mac.split(":")`: Python single-character split keeps empty fields, as
does `List.splitOn`. -/
def macParts (address : String) : List (List Char) :=
  (pyReplaceDash address.toList).splitOn ':'

/-- `_get_mac_bytes` on the plain-address path: normalize dashes to colons,
split on colons; six fields are parsed with `int(p, 16)` (whose `ValueError`
propagates to the caller); any other field count degrades to six zero bytes. -/
def _get_mac_bytes (address : String) : Except String (List Int) :=
  let parts := macParts address
  if parts.length = 6 then
    match parts.mapM pyIntHex with
    | some vals => Except.ok (vals.map Int.ofNat)
    | none => Except.error "ValueError"
  else
    Except.ok [0, 0, 0, 0, 0, 0]

/-! ## Device session and transport model -/

/-- The mutable light state of a `NeewerLightDevice` (`__init__`,
lines 62-67). -/
structure LightState where
  is_on : Bool
  brightness : Int
  color_temp : Int
  hue : Int
  saturation : Int
deriving DecidableEq

/-- Initial state set in `__init__`: off, brightness 100, internal color
temperature 56, hue 0, saturation 100. -/
def initialLightState : LightState :=
  { is_on := false, brightness := 100, color_temp := 56, hue := 0, saturation := 100 }

/-- Transport behaviour for one `_send_command` call: whether `connect()`
ultimately succeeds (it already embeds the retry budget) and whether the
`write_gatt_char` succeeds. -/
structure TransportStep where
  connectOk : Bool
  writeOk : Bool
deriving DecidableEq

/-- Observable outcome of one `_send_command` call: the returned boolean, the
session's `_connected` flag after the call, and the frames actually handed to
`write_gatt_char`. -/
structure SendOutcome where
  ok : Bool
  connectedAfter : Bool
  writes : List (List Int)
deriving DecidableEq

/-- `_send_command(command)` (lines 274-298): if `connect()` fails, return
`False` with no write (the session is left disconnected by `connect()`
itself).  Otherwise write the frame exactly once; a write failure sets
`_connected = False` and returns `False`; the `finally` block always runs
`disconnect()`, so the session holds no live connection on return. -/
def _send_command (step : TransportStep) (command : List Int) : SendOutcome :=
  if step.connectOk then
    { ok := step.writeOk, connectedAfter := false, writes := [command] }
  else
    { ok := false, connectedAfter := false, writes := [] }

/-- The `i`-th `_send_command` of an operation, driven by the oracle (a
missing oracle entry behaves as a failed transport). -/
def sendAt (oracle : List TransportStep) (i : Nat) (command : List Int) : SendOutcome :=
  _send_command (oracle.getD i { connectOk := false, writeOk := false }) command

/-- Result of one public device operation: the returned boolean, the light
state after the call, and the frames passed to `_send_command`, in order.
Every transport interaction of these operations goes through
`_send_command`, so an empty `sends` list means no connect and no write. -/
structure OpResult where
  ok : Bool
  state : LightState
  sends : List (List Int)
deriving DecidableEq

/-- The unconditional state updates at the head of `turn_on`
(lines 419-425): set `_is_on`, clamp an optional brightness, convert an
optional Kelvin value. -/
def turn_on_updates (mi : ModelInfo) (s : LightState)
    (brightness color_temp_kelvin : Option Int) : LightState :=
  let s1 := { s with is_on := true }
  let s2 := match brightness with
    | some b => { s1 with brightness := pyClamp 0 100 b }
    | none => s1
  match color_temp_kelvin with
    | some k => { s2 with color_temp := kelvin_to_internal (color_temp_range mi) k }
    | none => s2

/-- `turn_on(brightness, color_temp_kelvin, hue, saturation)`
(lines 411-451). -/
def turn_on (mi : ModelInfo) (mac : List Int) (s : LightState)
    (oracle : List TransportStep)
    (brightness color_temp_kelvin hue saturation : Option Int) : OpResult :=
  let s3 := turn_on_updates mi s brightness color_temp_kelvin
  if supports_rgb mi && hue.isSome then
    let s4 := { s3 with hue := pyClamp 0 360 (hue.getD 0) }
    let s5 := match saturation with
      | some v => { s4 with saturation := pyClamp 0 100 v }
      | none => s4
    let cmd := _build_hsi_command mi mac s5.hue s5.saturation s5.brightness
    { ok := (sendAt oracle 0 cmd).ok, state := s5, sends := [cmd] }
  else if uses_infinity_protocol mi then
    let cmd := _build_cct_command mi mac s3.brightness s3.color_temp
    { ok := (sendAt oracle 0 cmd).ok, state := s3, sends := [cmd] }
  else
    let power_cmd := _build_power_command mi mac true
    let bri_cmd := _build_brightness_only_command s3.brightness
    let temp_cmd := _build_temp_only_command s3.color_temp
    { ok := (sendAt oracle 2 temp_cmd).ok, state := s3,
      sends := [power_cmd, bri_cmd, temp_cmd] }

/-- `turn_off()` (lines 453-458). -/
def turn_off (mi : ModelInfo) (mac : List Int) (s : LightState)
    (oracle : List TransportStep) : OpResult :=
  let s1 := { s with is_on := false }
  let cmd := _build_power_command mi mac false
  { ok := (sendAt oracle 0 cmd).ok, state := s1, sends := [cmd] }

/-- `set_brightness(brightness)` (lines 460-471).  Note `_is_on` is set from
the unclamped argument (`brightness > 0`). -/
def set_brightness (mi : ModelInfo) (mac : List Int) (s : LightState)
    (oracle : List TransportStep) (brightness : Int) : OpResult :=
  let s1 := { s with brightness := pyClamp 0 100 brightness,
                     is_on := decide (0 < brightness) }
  if uses_infinity_protocol mi then
    let cmd := _build_cct_command mi mac s1.brightness s1.color_temp
    { ok := (sendAt oracle 0 cmd).ok, state := s1, sends := [cmd] }
  else
    let cmd := _build_brightness_only_command s1.brightness
    { ok := (sendAt oracle 0 cmd).ok, state := s1, sends := [cmd] }

/-- `set_color_temp(kelvin)` (lines 473-485): always stores the converted
value; only sends a frame while the stored state is on. -/
def set_color_temp (mi : ModelInfo) (mac : List Int) (s : LightState)
    (oracle : List TransportStep) (kelvin : Int) : OpResult :=
  let s1 := { s with color_temp := kelvin_to_internal (color_temp_range mi) kelvin }
  if s1.is_on then
    if uses_infinity_protocol mi then
      let cmd := _build_cct_command mi mac s1.brightness s1.color_temp
      { ok := (sendAt oracle 0 cmd).ok, state := s1, sends := [cmd] }
    else
      let cmd := _build_temp_only_command s1.color_temp
      { ok := (sendAt oracle 0 cmd).ok, state := s1, sends := [cmd] }
  else
    { ok := true, state := s1, sends := [] }

/-- `set_rgb(hue, saturation, brightness)` (lines 487-500): rejected up front
on non-RGB models, before any state change or transport use. -/
def set_rgb (mi : ModelInfo) (mac : List Int) (s : LightState)
    (oracle : List TransportStep) (hue saturation : Int)
    (brightness : Option Int) : OpResult :=
  if supports_rgb mi then
    let s1 := { s with hue := pyClamp 0 360 hue,
                       saturation := pyClamp 0 100 saturation }
    let s2 := match brightness with
      | some b => { s1 with brightness := pyClamp 0 100 b }
      | none => s1
    let s3 := { s2 with is_on := true }
    let cmd := _build_hsi_command mi mac s3.hue s3.saturation s3.brightness
    { ok := (sendAt oracle 0 cmd).ok, state := s3, sends := [cmd] }
  else
    { ok := false, state := s, sends := [] }

/-- A frame whose final byte is the checksum of everything before it. -/
def frame_checksum_ok (frame : List Int) : Prop :=
  frame.getLast? = some (_calculate_checksum frame.dropLast)

/-! # Helper lemmas -/

/-- `_add_checksum` appends exactly the checksum of the preceding bytes. -/
theorem add_checksum_frame_ok (cmd : List Int) :
    frame_checksum_ok (_add_checksum cmd) := by
  unfold frame_checksum_ok _add_checksum
  rw [List.dropLast_concat, List.getLast?_concat]

/-- `_send_command` reports success exactly when the connect and the write
both succeed. -/
theorem send_command_ok_eq (step : TransportStep) (command : List Int) :
    (_send_command step command).ok = (step.connectOk && step.writeOk) := by
  cases h : step.connectOk <;> simp [_send_command, h]

/-- Truncating rescale `x ↦ x·100/d ↦ ·d/100` (natural numbers): the round
trip never grows and falls short by at most `d / 100 + 1`. -/
theorem nat_scale_roundtrip (d x : Nat) (hd : 0 < d) :
    x * 100 / d * d / 100 ≤ x ∧ x - x * 100 / d * d / 100 ≤ d / 100 + 1 := by
  have key : ∀ t r : Nat, t + r = x * 100 → r < d →
      t / 100 ≤ x ∧ x - t / 100 ≤ d / 100 + 1 := by
    intro t r ht hr
    omega
  have hdm := Nat.div_add_mod (x * 100) d
  have hml : x * 100 % d < d := Nat.mod_lt _ hd
  refine key (x * 100 / d * d) (x * 100 % d) ?_ hml
  rw [Nat.mul_comm (x * 100 / d) d]
  exact hdm

/-- `Int.tdiv` on natural casts is natural division. -/
theorem natCast_tdiv (a b : Nat) :
    ((a : Int)).tdiv (b : Int) = ((a / b : Nat) : Int) := rfl

/-! # Claim theorems -/

/-- C4: every frame built by the codec ends in a checksum byte equal to the
sum of all preceding frame bytes — each negative byte corrected by adding
256 — masked to the low 8 bits. -/
theorem codec_frames_append_checksum (mi : ModelInfo) (mac : List Int)
    (brightness color_temp hue saturation intensity color_temp2 : Int)
    (power_on : Bool) :
    frame_checksum_ok (_build_cct_command mi mac brightness color_temp) ∧
    frame_checksum_ok (_build_hsi_command mi mac hue saturation intensity) ∧
    frame_checksum_ok (_build_power_command mi mac power_on) ∧
    frame_checksum_ok (_build_brightness_only_command brightness) ∧
    frame_checksum_ok (_build_temp_only_command color_temp2) := by
  unfold _build_cct_command _build_hsi_command _build_power_command
    _build_brightness_only_command _build_temp_only_command
  refine ⟨?_, ?_, ?_, ?_, ?_⟩ <;>
    first
      | exact add_checksum_frame_ok _
      | (split <;> exact add_checksum_frame_ok _)

/-- C5: on a Standard-variant device with Kelvin range (3200, 5600),
brightness 80 and 4000 K give internal temperature 33, protocol temperature
39 = 0x27, and the CCT frame `[0x78, 0x87, 0x02, 0x50, 0x27, checksum]`
(the checksum byte being 0x78). -/
theorem standard_cct_frame_80_4000 (mi : ModelInfo) (mac : List Int)
    (h1 : uses_infinity_protocol mi = false)
    (h2 : color_temp_range mi = (3200, 5600)) :
    kelvin_to_internal (color_temp_range mi) 4000 = 33 ∧
    protocol_temp 33 = 39 ∧
    _build_cct_command mi mac 80 (kelvin_to_internal (color_temp_range mi) 4000) =
      [0x78, 0x87, 0x02, 0x50, 0x27, 0x78] := by
  rw [h2]
  refine ⟨by decide, by decide, ?_⟩
  simp only [_build_cct_command, h1, Bool.false_eq_true, if_false]
  decide

/-- C5 witness: the fallback model is Standard-variant with range
(3200, 5600). -/
theorem standard_cct_frame_80_4000_witness :
    kelvin_to_internal (color_temp_range defaultModelInfo) 4000 = 33 ∧
    protocol_temp 33 = 39 ∧
    _build_cct_command defaultModelInfo [0, 0, 0, 0, 0, 0] 80
        (kelvin_to_internal (color_temp_range defaultModelInfo) 4000) =
      [0x78, 0x87, 0x02, 0x50, 0x27, 0x78] :=
  standard_cct_frame_80_4000 defaultModelInfo [0, 0, 0, 0, 0, 0] rfl rfl

/-- C6: for an Infinity-variant device with MAC bytes AA:BB:CC:DD:EE:FF the
power-on frame is `[0x78, 0x8D, 0x08, AA, BB, CC, DD, EE, FF, 0x81, 0x01,
checksum]`, the Infinity power-off frame carries inner payload 0, and the
Standard power frame uses opcode 0x81 with payload 1 for on and 2 for off. -/
theorem power_command_frames (mi mj : ModelInfo)
    (hi : uses_infinity_protocol mi = true)
    (hj : uses_infinity_protocol mj = false) :
    _build_power_command mi [0xAA, 0xBB, 0xCC, 0xDD, 0xEE, 0xFF] true =
      [0x78, 0x8D, 0x08, 0xAA, 0xBB, 0xCC, 0xDD, 0xEE, 0xFF, 0x81, 0x01, 0x8A] ∧
    _build_power_command mi [0xAA, 0xBB, 0xCC, 0xDD, 0xEE, 0xFF] false =
      [0x78, 0x8D, 0x08, 0xAA, 0xBB, 0xCC, 0xDD, 0xEE, 0xFF, 0x81, 0x00, 0x89] ∧
    _build_power_command mj [0xAA, 0xBB, 0xCC, 0xDD, 0xEE, 0xFF] true =
      [0x78, 0x81, 0x01, 0x01, 0xFB] ∧
    _build_power_command mj [0xAA, 0xBB, 0xCC, 0xDD, 0xEE, 0xFF] false =
      [0x78, 0x81, 0x01, 0x02, 0xFC] := by
  refine ⟨?_, ?_, ?_, ?_⟩ <;>
    simp only [_build_power_command, hi, hj, if_true, Bool.false_eq_true, if_false] <;>
    decide

/-- C6 witness: an Infinity-flagged model info and the Standard fallback. -/
theorem power_command_frames_witness :
    _build_power_command infinityModelInfo [0xAA, 0xBB, 0xCC, 0xDD, 0xEE, 0xFF] true =
      [0x78, 0x8D, 0x08, 0xAA, 0xBB, 0xCC, 0xDD, 0xEE, 0xFF, 0x81, 0x01, 0x8A] ∧
    _build_power_command infinityModelInfo [0xAA, 0xBB, 0xCC, 0xDD, 0xEE, 0xFF] false =
      [0x78, 0x8D, 0x08, 0xAA, 0xBB, 0xCC, 0xDD, 0xEE, 0xFF, 0x81, 0x00, 0x89] ∧
    _build_power_command defaultModelInfo [0xAA, 0xBB, 0xCC, 0xDD, 0xEE, 0xFF] true =
      [0x78, 0x81, 0x01, 0x01, 0xFB] ∧
    _build_power_command defaultModelInfo [0xAA, 0xBB, 0xCC, 0xDD, 0xEE, 0xFF] false =
      [0x78, 0x81, 0x01, 0x02, 0xFC] :=
  power_command_frames infinityModelInfo defaultModelInfo rfl rfl

/-- C7: requesting HSI via `set_rgb` on a model without RGB support returns
failure, leaves every field of the light state unchanged, and hands no frame
to `_send_command` (hence no connect and no write). -/
theorem set_rgb_non_rgb_rejected (mi : ModelInfo) (mac : List Int)
    (s : LightState) (oracle : List TransportStep) (hue saturation : Int)
    (brightness : Option Int) (h : supports_rgb mi = false) :
    set_rgb mi mac s oracle hue saturation brightness =
      { ok := false, state := s, sends := [] } := by
  simp [set_rgb, h]

/-- C7 witness: the fallback model has no RGB support. -/
theorem set_rgb_non_rgb_rejected_witness :
    set_rgb defaultModelInfo [0, 0, 0, 0, 0, 0] initialLightState
        [{ connectOk := true, writeOk := true }] 120 50 none =
      { ok := false, state := initialLightState, sends := [] } :=
  set_rgb_non_rgb_rejected defaultModelInfo [0, 0, 0, 0, 0, 0] initialLightState
    [{ connectOk := true, writeOk := true }] 120 50 none rfl

/-- C9: when `_send_command` establishes the connection, the session holds no
live connection on return (the `finally` disconnect runs whether the write
succeeded or failed), exactly one write is attempted (no retry), and the
returned boolean is the write's outcome — in particular a write failure is
reported as failure. -/
theorem send_command_disconnects_after (step : TransportStep)
    (command : List Int) (h : step.connectOk = true) :
    _send_command step command =
      { ok := step.writeOk, connectedAfter := false, writes := [command] } := by
  simp [_send_command, h]

/-- C9 witness: a connect that succeeds followed by a write that fails. -/
theorem send_command_disconnects_after_witness :
    _send_command { connectOk := true, writeOk := false } [0x78] =
      { ok := false, connectedAfter := false, writes := [[0x78]] } :=
  send_command_disconnects_after { connectOk := true, writeOk := false } [0x78] rfl

/-- C10: `set_color_temp` while the stored state is off updates the stored
internal color temperature to the converted value, sends no frame, returns
success, and changes no other light-state field. -/
theorem set_color_temp_while_off (mi : ModelInfo) (mac : List Int)
    (s : LightState) (oracle : List TransportStep) (kelvin : Int)
    (h : s.is_on = false) :
    set_color_temp mi mac s oracle kelvin =
      { ok := true,
        state := { s with color_temp := kelvin_to_internal (color_temp_range mi) kelvin },
        sends := [] } := by
  simp [set_color_temp, h]

/-- C10 witness: the initial state is off. -/
theorem set_color_temp_while_off_witness :
    set_color_temp defaultModelInfo [0, 0, 0, 0, 0, 0] initialLightState
        [{ connectOk := true, writeOk := true }] 4000 =
      { ok := true,
        state := { initialLightState with
          color_temp := kelvin_to_internal (color_temp_range defaultModelInfo) 4000 },
        sends := [] } :=
  set_color_temp_while_off defaultModelInfo [0, 0, 0, 0, 0, 0] initialLightState
    [{ connectOk := true, writeOk := true }] 4000 rfl

/-- C8 counterexample: an address that splits into six colon-delimited parts
one of which is not hexadecimal makes `_get_mac_bytes` raise `ValueError`
(`int("GG", 16)`), instead of degrading to the six-zero placeholder. -/
theorem get_mac_bytes_six_nonhex_raises :
    _get_mac_bytes "AA:BB:CC:DD:EE:GG" = Except.error "ValueError" := by rfl

/-- C8 (amended): the six-zero-byte degradation covers exactly the addresses
whose colon-normalized form does not split into six fields; for those, no
error reaches the caller. -/
theorem get_mac_bytes_bad_split_degrades (address : String)
    (h : (macParts address).length ≠ 6) :
    _get_mac_bytes address = Except.ok [0, 0, 0, 0, 0, 0] := by
  simp only [_get_mac_bytes]
  rw [if_neg h]

/-- C8 witness: a colon-free address splits into a single field and degrades
to zeros. -/
theorem get_mac_bytes_bad_split_degrades_witness :
    _get_mac_bytes "E1C56DAF14B3" = Except.ok [0, 0, 0, 0, 0, 0] :=
  get_mac_bytes_bad_split_degrades "E1C56DAF14B3" (by decide)

/-- C3 counterexample: with range (3200, 5600) and kelvin 4000 the
internal-scale round trip returns 3992, which is 8 Kelvin below the
original — not within 1 unit. -/
theorem kelvin_roundtrip_not_within_one :
    internal_to_kelvin (3200, 5600) (kelvin_to_internal (3200, 5600) 4000) = 3992 ∧
    1 < 4000 - internal_to_kelvin (3200, 5600) (kelvin_to_internal (3200, 5600) 4000) := by
  decide

/-- C3 (amended): for every Kelvin range with min < max and kelvin in
[min, max], the round trip never exceeds the original kelvin and falls short
of it by at most (max - min) / 100 + 1 (the truncation tolerance grows with
the span; it is not the constant 1). -/
theorem kelvin_roundtrip_within_span (mn mx kelvin : Int)
    (h1 : mn < mx) (h2 : mn ≤ kelvin) (h3 : kelvin ≤ mx) :
    internal_to_kelvin (mn, mx) (kelvin_to_internal (mn, mx) kelvin) ≤ kelvin ∧
    kelvin - internal_to_kelvin (mn, mx) (kelvin_to_internal (mn, mx) kelvin) ≤
      (mx - mn).tdiv 100 + 1 := by
  obtain ⟨x, hx⟩ : ∃ x : Nat, kelvin - mn = (x : Int) :=
    ⟨(kelvin - mn).toNat, (Int.toNat_of_nonneg (by omega)).symm⟩
  obtain ⟨d, hdd⟩ : ∃ d : Nat, mx - mn = (d : Int) :=
    ⟨(mx - mn).toNat, (Int.toNat_of_nonneg (by omega)).symm⟩
  have hd : 0 < d := by omega
  have hclamp : pyClamp mn mx kelvin = kelvin := by
    unfold pyClamp
    omega
  have hcast1 : ((x : Int)) * 100 = ((x * 100 : Nat) : Int) := by push_cast; ring
  have e1 : kelvin_to_internal (mn, mx) kelvin = ((x * 100 / d : Nat) : Int) := by
    show ((pyClamp mn mx kelvin - mn) * 100).tdiv (mx - mn) = _
    rw [hclamp, hx, hdd, hcast1, natCast_tdiv]
  have hcast2 : ((x * 100 / d : Nat) : Int) * ((d : Nat) : Int) =
      ((x * 100 / d * d : Nat) : Int) := by push_cast; ring
  have e2 : internal_to_kelvin (mn, mx) ((x * 100 / d : Nat) : Int) =
      mn + ((x * 100 / d * d / 100 : Nat) : Int) := by
    show mn + (((x * 100 / d : Nat) : Int) * (mx - mn)).tdiv 100 = _
    rw [hdd, hcast2]
    exact congrArg (fun z => mn + z) (natCast_tdiv (x * 100 / d * d) 100)
  have e3 : (mx - mn).tdiv 100 = ((d / 100 : Nat) : Int) := by
    rw [hdd]
    exact natCast_tdiv d 100
  obtain ⟨a1, a2⟩ := nat_scale_roundtrip d x hd
  rw [e1, e2, e3]
  omega

/-- C3 witness: range (3200, 5600), kelvin 4000 — the round trip gives 3992,
within the proved tolerance (5600 - 3200) / 100 + 1 = 25. -/
theorem kelvin_roundtrip_within_span_witness :
    internal_to_kelvin (3200, 5600) (kelvin_to_internal (3200, 5600) 4000) ≤ 4000 ∧
    4000 - internal_to_kelvin (3200, 5600) (kelvin_to_internal (3200, 5600) 4000) ≤
      ((5600 : Int) - 3200).tdiv 100 + 1 :=
  kelvin_roundtrip_within_span 3200 5600 4000 (by decide) (by decide) (by decide)

/-- C1: the device code routes every Standard-variant device — including
non-legacy ones, here the fallback model (Standard, `cct_only` absent) —
through the separate power / brightness-only / temp-only frames (opcodes
0x81, 0x82, 0x83) on `turn_on`, and through the single-field 0x82 / 0x83
frames on `set_brightness` / `set_color_temp`; the combined 0x87 CCT frame is
never emitted for them, contrary to the claim (and to `const.py`'s documented
meaning of the `cct_only` and `light_type` flags). -/
theorem standard_nonlegacy_emits_separate_frames :
    (turn_on defaultModelInfo [0, 0, 0, 0, 0, 0] initialLightState
        [{ connectOk := true, writeOk := true }, { connectOk := true, writeOk := true },
         { connectOk := true, writeOk := true }] (some 80) (some 4000) none none).sends =
      [[0x78, 0x81, 0x01, 0x01, 0xFB],
       [0x78, 0x82, 0x01, 0x50, 0x4B],
       [0x78, 0x83, 0x01, 0x27, 0x23]] ∧
    (set_brightness defaultModelInfo [0, 0, 0, 0, 0, 0]
        { initialLightState with is_on := true }
        [{ connectOk := true, writeOk := true }] 80).sends =
      [[0x78, 0x82, 0x01, 0x50, 0x4B]] ∧
    (set_color_temp defaultModelInfo [0, 0, 0, 0, 0, 0]
        { initialLightState with is_on := true }
        [{ connectOk := true, writeOk := true }] 4000).sends =
      [[0x78, 0x83, 0x01, 0x27, 0x23]] := by
  decide

/-- On the non-HSI, non-Infinity path, `turn_on` performs exactly the
power-on / brightness-only / temp-only sequence on the updated state and
returns the third send's outcome. -/
theorem turn_on_standard_shape (mi : ModelInfo) (mac : List Int)
    (s : LightState) (oracle : List TransportStep)
    (brightness color_temp_kelvin hue saturation : Option Int)
    (hcond : (supports_rgb mi && hue.isSome) = false)
    (hstd : uses_infinity_protocol mi = false) :
    turn_on mi mac s oracle brightness color_temp_kelvin hue saturation =
      { ok := (sendAt oracle 2 (_build_temp_only_command
          (turn_on_updates mi s brightness color_temp_kelvin).color_temp)).ok,
        state := turn_on_updates mi s brightness color_temp_kelvin,
        sends := [_build_power_command mi mac true,
          _build_brightness_only_command
            (turn_on_updates mi s brightness color_temp_kelvin).brightness,
          _build_temp_only_command
            (turn_on_updates mi s brightness color_temp_kelvin).color_temp] } := by
  simp only [turn_on, hcond, Bool.false_eq_true, if_false, hstd]

/-- C2: on a legacy CCT-only Standard-variant device, `turn_on` hands exactly
three frames to `_send_command`, in order power-on, brightness-only,
temp-only (later frames are attempted whatever happened to earlier ones: the
emitted sequence does not depend on the transport oracle), the returned
boolean is the success of the last (temp-only) send, and the stored light
state reflects the intended target for every transport outcome (no
rollback). -/
theorem turn_on_legacy_three_frames (mi : ModelInfo) (mac : List Int)
    (s : LightState) (oracle : List TransportStep)
    (brightness color_temp_kelvin hue saturation : Option Int)
    (hstd : uses_infinity_protocol mi = false)
    (_hleg : cct_only_flag mi = true)
    (hrgb : supports_rgb mi = false) :
    (turn_on mi mac s oracle brightness color_temp_kelvin hue saturation).sends =
      [_build_power_command mi mac true,
       _build_brightness_only_command
         (turn_on mi mac s oracle brightness color_temp_kelvin hue saturation).state.brightness,
       _build_temp_only_command
         (turn_on mi mac s oracle brightness color_temp_kelvin hue saturation).state.color_temp] ∧
    (turn_on mi mac s oracle brightness color_temp_kelvin hue saturation).ok =
      ((oracle.getD 2 { connectOk := false, writeOk := false }).connectOk &&
       (oracle.getD 2 { connectOk := false, writeOk := false }).writeOk) ∧
    (turn_on mi mac s oracle brightness color_temp_kelvin hue saturation).state.is_on
      = true ∧
    ∀ oracle2 : List TransportStep,
      (turn_on mi mac s oracle2 brightness color_temp_kelvin hue saturation).state =
        (turn_on mi mac s oracle brightness color_temp_kelvin hue saturation).state := by
  have hcond : (supports_rgb mi && hue.isSome) = false := by rw [hrgb]; simp
  rw [turn_on_standard_shape mi mac s oracle brightness color_temp_kelvin hue saturation
    hcond hstd]
  refine ⟨rfl, ?_, ?_, ?_⟩
  · exact send_command_ok_eq _ _
  · cases brightness <;> cases color_temp_kelvin <;> rfl
  · intro oracle2
    rw [turn_on_standard_shape mi mac s oracle2 brightness color_temp_kelvin hue saturation
      hcond hstd]

/-- C2 witness: the SNL-660 catalog entry (legacy CCT-only, Standard), with a
transport that fails on the second frame. -/
theorem turn_on_legacy_three_frames_witness :
    (turn_on snl660ModelInfo [0, 0, 0, 0, 0, 0] initialLightState
        [{ connectOk := true, writeOk := true }, { connectOk := false, writeOk := false },
         { connectOk := true, writeOk := true }] (some 80) (some 4000) none none).sends =
      [_build_power_command snl660ModelInfo [0, 0, 0, 0, 0, 0] true,
       _build_brightness_only_command
         (turn_on snl660ModelInfo [0, 0, 0, 0, 0, 0] initialLightState
           [{ connectOk := true, writeOk := true }, { connectOk := false, writeOk := false },
            { connectOk := true, writeOk := true }]
           (some 80) (some 4000) none none).state.brightness,
       _build_temp_only_command
         (turn_on snl660ModelInfo [0, 0, 0, 0, 0, 0] initialLightState
           [{ connectOk := true, writeOk := true }, { connectOk := false, writeOk := false },
            { connectOk := true, writeOk := true }]
           (some 80) (some 4000) none none).state.color_temp] ∧
    (turn_on snl660ModelInfo [0, 0, 0, 0, 0, 0] initialLightState
        [{ connectOk := true, writeOk := true }, { connectOk := false, writeOk := false },
         { connectOk := true, writeOk := true }] (some 80) (some 4000) none none).ok =
      ((([{ connectOk := true, writeOk := true }, { connectOk := false, writeOk := false },
         { connectOk := true, writeOk := true }] : List TransportStep).getD 2
           { connectOk := false, writeOk := false }).connectOk &&
       (([{ connectOk := true, writeOk := true }, { connectOk := false, writeOk := false },
         { connectOk := true, writeOk := true }] : List TransportStep).getD 2
           { connectOk := false, writeOk := false }).writeOk) ∧
    (turn_on snl660ModelInfo [0, 0, 0, 0, 0, 0] initialLightState
        [{ connectOk := true, writeOk := true }, { connectOk := false, writeOk := false },
         { connectOk := true, writeOk := true }] (some 80) (some 4000) none none).state.is_on
      = true ∧
    ∀ oracle2 : List TransportStep,
      (turn_on snl660ModelInfo [0, 0, 0, 0, 0, 0] initialLightState oracle2
          (some 80) (some 4000) none none).state =
        (turn_on snl660ModelInfo [0, 0, 0, 0, 0, 0] initialLightState
          [{ connectOk := true, writeOk := true }, { connectOk := false, writeOk := false },
           { connectOk := true, writeOk := true }]
          (some 80) (some 4000) none none).state :=
  turn_on_legacy_three_frames snl660ModelInfo [0, 0, 0, 0, 0, 0] initialLightState
    [{ connectOk := true, writeOk := true }, { connectOk := false, writeOk := false },
     { connectOk := true, writeOk := true }] (some 80) (some 4000) none none rfl rfl rfl
